import Mathlib

/-!
Shallow embedding of the device-tracker core (src/device2.py): the device
table model, the status lifecycle functions (`cycle_status`,
`find_device_by_serial`, `process_barcode_scan`) and the destroy log.

Modelling choices:
* A pandas row of the active table becomes a `DeviceRecord`; the table is a
  `List DeviceRecord` in sheet row order (the DataFrame always carries a
  fresh positional RangeIndex in the source, so pandas label indices are
  list positions here).
* `datetime.now(...)` and `st.session_state.username` are ambient inputs;
  they are passed explicitly as `timestamp` and `username` strings.
* `save_data` talks to the external sheet and returns a success boolean; its
  outcome is the explicit parameter `saveOk`.  `log_destroy` appends to the
  `destroy_log` sheet and returns a success boolean ignored by the caller;
  its outcome is `logOk` and the sheet is the explicit `destroyLog` list.
* Python `str.strip` is `pyStrip`, `str.upper` is `pyUpper`: executable
  character-list versions of `String.trim` / `String.toUpper` (the core
  `String` ones are compiled by well-founded recursion and do not reduce in
  the kernel).
-/

/-- Python `str.strip`: drop whitespace from both ends. -/
def pyStrip (s : String) : String :=
  String.mk (((s.data.dropWhile Char.isWhitespace).reverse.dropWhile
    Char.isWhitespace).reverse)

/-- Python `str.upper`: uppercase every character. -/
def pyUpper (s : String) : String :=
  String.mk (s.data.map Char.toUpper)

/-- One row of the active device table (columns
`Serial Number, Device Name, Status, Last Scanned/Added, Scanned/Added By`). -/
structure DeviceRecord where
  serial : String
  name : String
  status : String
  lastScanned : String
  scannedBy : String
deriving DecidableEq, Repr

/-- One row of the `destroy_log` sheet (columns
`Serial Number, Destroyed At, By`). -/
structure DestroyLogEntry where
  serial : String
  destroyedAt : String
  destroyedBy : String
deriving DecidableEq, Repr

/-- `[s.value for s in DeviceStatus]`: the status choices offered by the
selectboxes, among them the scanner's "Default Status for New Devices". -/
def deviceStatusValues : List String := ["Ready", "Return", "Destroy"]

/-- `get_status_icon` from src/device2.py. -/
def get_status_icon (status : String) : String :=
  if status = "Ready" then "🟢"
  else if status = "Return" then "🔴"
  else if status = "Destroy" then "💥"
  else "❓"

/-- `cycle_status` from src/device2.py. -/
def cycle_status (current_status : String) : String :=
  if current_status = "Ready" then "Return"
  else if current_status = "Return" then "Ready"
  else "Destroy"

/-- The filtering-plus-first-index core of `find_device_by_serial`:
`df[df["Serial Number"].astype(str).str.upper() == serial.upper()]`,
then `matching.iloc[0], matching.index[0]`. -/
def find_core : List DeviceRecord → String → Option (DeviceRecord × Nat)
  | [], _ => none
  | r :: rest, serial =>
    if pyUpper r.serial = pyUpper serial then some (r, 0)
    else (find_core rest serial).map (fun p => (p.1, p.2 + 1))

/-- `find_device_by_serial` from src/device2.py: guard on an empty table or a
blank search string, then case-insensitive first match with its position. -/
def find_device_by_serial (df : List DeviceRecord) (serial : String) :
    Option (DeviceRecord × Nat) :=
  if df.isEmpty || pyStrip serial = "" then none
  else find_core df serial

/-- `log_destroy` from src/device2.py: appends `[serial, now, username]` to the
`destroy_log` sheet; on a sheets failure (`logOk = false`) nothing is appended
and `False` is returned (the boolean is ignored by every caller). -/
def log_destroy (destroyLog : List DestroyLogEntry) (serial timestamp username : String)
    (logOk : Bool) : List DestroyLogEntry :=
  if logOk then destroyLog ++ [⟨serial, timestamp, username⟩] else destroyLog

/-- `check_duplicate_serial` from src/device2.py. -/
def check_duplicate_serial (df : List DeviceRecord) (serial : String)
    (exclude_idx : Option Nat := none) : Bool :=
  (List.range df.length).any fun i =>
    match df[i]? with
    | some r =>
        pyUpper r.serial == pyUpper serial &&
          (match exclude_idx with
           | some j => i != j
           | none => true)
    | none => false

/-- Result of one `process_barcode_scan` call: the returned triple
`(success, message, df)` plus the state of the `destroy_log` sheet. -/
structure ScanResult where
  ok : Bool
  message : String
  table : List DeviceRecord
  destroyLog : List DestroyLogEntry
deriving DecidableEq, Repr

/-- `process_barcode_scan` from src/device2.py.  `timestamp` and `username`
are the ambient clock and session actor; `saveOk` is the outcome of the one
`save_data` call a run makes, `logOk` the outcome of `log_destroy`'s append,
`destroyLog` the `destroy_log` sheet before the call. -/
def process_barcode_scan (barcode_data : String) (df : List DeviceRecord)
    (default_status : String) (timestamp username : String)
    (saveOk logOk : Bool) (destroyLog : List DestroyLogEntry) : ScanResult :=
  let b := pyStrip barcode_data
  if b = "" then ⟨false, "❌ Empty barcode", df, destroyLog⟩
  else
    match find_device_by_serial df b with
    | some (device, idx) =>
      if device.status = "Destroy" then
        -- log ก่อนลบ: log first, then drop the row and save
        let log' := log_destroy destroyLog b timestamp username logOk
        let df' := df.eraseIdx idx
        if saveOk then
          ⟨true, "💥 Device Destroyed & Removed: " ++ b, df', log'⟩
        else
          ⟨false, "❌ Failed to delete device", df', log'⟩
      else
        -- cycle status (Ready <-> Return); the three `df.at[idx, ...] = ...`
        -- writes update the row in place
        let updated : DeviceRecord :=
          { device with
              status := cycle_status device.status
              lastScanned := timestamp
              scannedBy := username }
        let df' := df.set idx updated
        if saveOk then
          ⟨true, "🔄 Status Updated: " ++ b ++ " - " ++
              get_status_icon (cycle_status device.status) ++ " " ++
              cycle_status device.status, df', destroyLog⟩
        else
          ⟨false, "❌ Failed to update scan info", df', destroyLog⟩
    | none =>
      let new_row : DeviceRecord := ⟨b, "Legacy pro", default_status, timestamp, username⟩
      let df' := df ++ [new_row]
      if saveOk then
        ⟨true, "➕ New Device Added: " ++ b, df', destroyLog⟩
      else
        ⟨false, "❌ Failed to save device: " ++ b, df', destroyLog⟩

/-! ### Helper lemmas about `find_core`, `List.set` and `List.eraseIdx` -/

/-- A successful `find_core` returns the record stored at the returned
position, that record matches case-insensitively, and no earlier record
matches. -/
theorem find_core_some_spec {l : List DeviceRecord} {s : String}
    {r : DeviceRecord} {i : Nat} (h : find_core l s = some (r, i)) :
    l[i]? = some r ∧ pyUpper r.serial = pyUpper s ∧
      ∀ j r', j < i → l[j]? = some r' → pyUpper r'.serial ≠ pyUpper s := by
  induction l generalizing i with
  | nil => simp [find_core] at h
  | cons a t ih =>
    by_cases ha : pyUpper a.serial = pyUpper s
    · rw [find_core, if_pos ha] at h
      obtain ⟨hr, hi⟩ := Prod.mk.injEq .. ▸ Option.some.injEq .. ▸ h
      subst hr; subst hi
      refine ⟨List.getElem?_cons_zero, ha, ?_⟩
      intro j r' hj _
      omega
    · rw [find_core, if_neg ha, Option.map_eq_some'] at h
      obtain ⟨⟨r₀, i₀⟩, hcore, heq⟩ := h
      obtain ⟨hr, hi⟩ := Prod.mk.injEq .. ▸ heq
      subst hr; subst hi
      obtain ⟨hget, hmatch, hbefore⟩ := ih hcore
      refine ⟨by rw [List.getElem?_cons_succ]; exact hget, hmatch, ?_⟩
      intro j r' hj hj'
      match j with
      | 0 =>
        rw [List.getElem?_cons_zero] at hj'
        exact (Option.some.inj hj') ▸ ha
      | j + 1 =>
        rw [List.getElem?_cons_succ] at hj'
        exact hbefore j r' (by omega) hj'

/-- If no record of the list matches, `find_core` returns `none`. -/
theorem find_core_eq_none_of {l : List DeviceRecord} {s : String}
    (h : ∀ r ∈ l, pyUpper r.serial ≠ pyUpper s) : find_core l s = none := by
  induction l with
  | nil => rfl
  | cons a t ih =>
    rw [find_core, if_neg (h a (List.mem_cons_self a t))]
    rw [ih fun r hr => h r (List.mem_cons_of_mem a hr)]
    rfl

/-- Replacing the found record by one with the same (case-insensitive)
serial makes `find_core` return the replacement at the same position. -/
theorem find_core_set {l : List DeviceRecord} {s : String}
    {r r' : DeviceRecord} {i : Nat} (h : find_core l s = some (r, i))
    (hser : pyUpper r'.serial = pyUpper r.serial) :
    find_core (l.set i r') s = some (r', i) := by
  induction l generalizing i with
  | nil => simp [find_core] at h
  | cons a t ih =>
    by_cases ha : pyUpper a.serial = pyUpper s
    · rw [find_core, if_pos ha] at h
      obtain ⟨hr, hi⟩ := Prod.mk.injEq .. ▸ Option.some.injEq .. ▸ h
      subst hr; subst hi
      rw [List.set_cons_zero, find_core, if_pos (hser.trans ha)]
    · rw [find_core, if_neg ha, Option.map_eq_some'] at h
      obtain ⟨⟨r₀, i₀⟩, hcore, heq⟩ := h
      obtain ⟨hr, hi⟩ := Prod.mk.injEq .. ▸ heq
      subst hr; subst hi
      rw [List.set_cons_succ, find_core, if_neg ha, ih hcore]
      rfl

/-- Unpack a successful `find_device_by_serial`: the guard passed and
`find_core` produced the result. -/
theorem find_device_eq_some {df : List DeviceRecord} {s : String}
    {p : DeviceRecord × Nat} (h : find_device_by_serial df s = some p) :
    find_core df s = some p ∧ df ≠ [] ∧ pyStrip s ≠ "" := by
  rw [find_device_by_serial] at h
  by_cases hg : df.isEmpty || pyStrip s = ""
  · rw [if_pos hg] at h; exact absurd h (by simp)
  · rw [if_neg hg] at h
    rw [Bool.or_eq_true, not_or] at hg
    refine ⟨h, ?_, ?_⟩
    · intro hnil
      exact hg.1 (by simp [hnil])
    · intro hs
      exact hg.2 (by simp [hs])

/-- `find_device_by_serial` returns `none` whenever `find_core` does. -/
theorem find_device_eq_none_of {df : List DeviceRecord} {s : String}
    (h : find_core df s = none) : find_device_by_serial df s = none := by
  rw [find_device_by_serial]
  by_cases hg : df.isEmpty || pyStrip s = ""
  · rw [if_pos hg]
  · rw [if_neg hg]; exact h

/-- Membership in a list survives `List.set` at a position holding a
different element. -/
theorem mem_set_of_ne {α : Type} {l : List α} {i : Nat} {d v a : α}
    (hget : l[i]? = some d) (ha : a ∈ l) (hne : a ≠ d) : a ∈ l.set i v := by
  induction l generalizing i with
  | nil => cases ha
  | cons x t ih =>
    match i with
    | 0 =>
      rw [List.getElem?_cons_zero] at hget
      have hd : x = d := Option.some.inj hget
      rw [List.set_cons_zero]
      rcases List.mem_cons.mp ha with hax | hat
      · exact absurd (hax.trans hd) hne
      · exact List.mem_cons_of_mem v hat
    | i + 1 =>
      rw [List.getElem?_cons_succ] at hget
      rw [List.set_cons_succ]
      rcases List.mem_cons.mp ha with hax | hat
      · exact hax ▸ List.mem_cons_self x _
      · exact List.mem_cons_of_mem x (ih hget hat)

/-- Membership in a list survives `List.eraseIdx` at a position holding a
different element. -/
theorem mem_eraseIdx_of_ne {α : Type} {l : List α} {i : Nat} {d a : α}
    (hget : l[i]? = some d) (ha : a ∈ l) (hne : a ≠ d) : a ∈ l.eraseIdx i := by
  induction l generalizing i with
  | nil => cases ha
  | cons x t ih =>
    match i with
    | 0 =>
      rw [List.getElem?_cons_zero] at hget
      have hd : x = d := Option.some.inj hget
      rw [List.eraseIdx_cons_zero]
      rcases List.mem_cons.mp ha with hax | hat
      · exact absurd (hax.trans hd) hne
      · exact hat
    | i + 1 =>
      rw [List.getElem?_cons_succ] at hget
      rw [List.eraseIdx_cons_succ]
      rcases List.mem_cons.mp ha with hax | hat
      · exact hax ▸ List.mem_cons_self x _
      · exact List.mem_cons_of_mem x (ih hget hat)

/-- Every member of `l.eraseIdx i` sits at some position of `l` other
than `i`. -/
theorem mem_eraseIdx_exists_ne {α : Type} {l : List α} {i : Nat} {a : α}
    (ha : a ∈ l.eraseIdx i) : ∃ j, j ≠ i ∧ l[j]? = some a := by
  induction l generalizing i with
  | nil => rw [List.eraseIdx_nil] at ha; cases ha
  | cons x t ih =>
    match i with
    | 0 =>
      rw [List.eraseIdx_cons_zero] at ha
      obtain ⟨k, hk⟩ := List.getElem?_of_mem ha
      exact ⟨k + 1, by omega, by rw [List.getElem?_cons_succ]; exact hk⟩
    | i + 1 =>
      rw [List.eraseIdx_cons_succ] at ha
      rcases List.mem_cons.mp ha with hax | hat
      · exact ⟨0, by omega, by rw [hax]; exact List.getElem?_cons_zero⟩
      · obtain ⟨j, hj, hget⟩ := ih hat
        exact ⟨j + 1, by omega, by rw [List.getElem?_cons_succ]; exact hget⟩

/-! ### Path characterizations of `process_barcode_scan` -/

/-- A successful lookup forces a non-empty search string. -/
theorem find_device_arg_ne {df : List DeviceRecord} {s : String}
    {p : DeviceRecord × Nat} (h : find_device_by_serial df s = some p) :
    s ≠ "" := by
  intro h0
  have hstrip := (find_device_eq_some h).2.2
  rw [h0] at hstrip
  exact hstrip (by decide)

/-- Empty-input path: a barcode that strips to the empty string is rejected
with no change to the table or the destroy log. -/
theorem process_scan_empty {barcode : String} (hb : pyStrip barcode = "")
    (df : List DeviceRecord) (ds ts u : String) (saveOk logOk : Bool)
    (log : List DestroyLogEntry) :
    process_barcode_scan barcode df ds ts u saveOk logOk log =
      ⟨false, "❌ Empty barcode", df, log⟩ := by
  rw [process_barcode_scan]
  simp [hb]

/-- Cycle path: a found record whose status is not `Destroy` is replaced in
place by its cycled, restamped copy; the destroy log is untouched. -/
theorem process_scan_cycle {barcode : String} {df : List DeviceRecord}
    {device : DeviceRecord} {idx : Nat}
    (hfind : find_device_by_serial df (pyStrip barcode) = some (device, idx))
    (hnd : device.status ≠ "Destroy")
    (ds ts u : String) (saveOk logOk : Bool) (log : List DestroyLogEntry) :
    process_barcode_scan barcode df ds ts u saveOk logOk log =
      ⟨saveOk,
        if saveOk then
          "🔄 Status Updated: " ++ pyStrip barcode ++ " - " ++
            get_status_icon (cycle_status device.status) ++ " " ++
            cycle_status device.status
        else "❌ Failed to update scan info",
        df.set idx
          { device with
              status := cycle_status device.status
              lastScanned := ts
              scannedBy := u },
        log⟩ := by
  have hbne : pyStrip barcode ≠ "" := find_device_arg_ne hfind
  rw [process_barcode_scan]
  simp only [if_neg hbne, hfind, if_neg hnd]
  cases saveOk <;> simp

/-- Destroy-on-scan path: a found record whose status is `Destroy` is logged
(when the sheets append succeeds) and dropped from the table. -/
theorem process_scan_destroy {barcode : String} {df : List DeviceRecord}
    {device : DeviceRecord} {idx : Nat}
    (hfind : find_device_by_serial df (pyStrip barcode) = some (device, idx))
    (hd : device.status = "Destroy")
    (ds ts u : String) (saveOk logOk : Bool) (log : List DestroyLogEntry) :
    process_barcode_scan barcode df ds ts u saveOk logOk log =
      ⟨saveOk,
        if saveOk then "💥 Device Destroyed & Removed: " ++ pyStrip barcode
        else "❌ Failed to delete device",
        df.eraseIdx idx,
        log_destroy log (pyStrip barcode) ts u logOk⟩ := by
  have hbne : pyStrip barcode ≠ "" := find_device_arg_ne hfind
  rw [process_barcode_scan]
  simp only [if_neg hbne, hfind, if_pos hd]
  cases saveOk <;> simp

/-- Create path: an unknown barcode appends one freshly stamped record with
the configured default status; the destroy log is untouched. -/
theorem process_scan_create {barcode : String} {df : List DeviceRecord}
    (hfind : find_device_by_serial df (pyStrip barcode) = none)
    (hbne : pyStrip barcode ≠ "")
    (ds ts u : String) (saveOk logOk : Bool) (log : List DestroyLogEntry) :
    process_barcode_scan barcode df ds ts u saveOk logOk log =
      ⟨saveOk,
        if saveOk then "➕ New Device Added: " ++ pyStrip barcode
        else "❌ Failed to save device: " ++ pyStrip barcode,
        df ++ [⟨pyStrip barcode, "Legacy pro", ds, ts, u⟩],
        log⟩ := by
  rw [process_barcode_scan]
  simp only [if_neg hbne, hfind]
  cases saveOk <;> simp

/-- Converse direction of the `find_device_by_serial` guard: a `find_core`
hit on a nonempty table with a non-blank search string goes through. -/
theorem find_device_of_core {df : List DeviceRecord} {s : String}
    {p : DeviceRecord × Nat} (hcore : find_core df s = some p)
    (hdf : df ≠ []) (hs : pyStrip s ≠ "") :
    find_device_by_serial df s = some p := by
  rw [find_device_by_serial, if_neg]
  · exact hcore
  · simp only [Bool.or_eq_true, decide_eq_true_eq, not_or]
    exact ⟨fun h => hdf (List.isEmpty_iff.mp h), hs⟩

/-! ### The claims -/

/-- C3: `cycle_status` maps `Ready` to `Return`, `Return` to `Ready`, and
`Destroy` to itself (Destroy is a no-op fixed point). -/
theorem cycle_status_transition_table :
    cycle_status "Ready" = "Return" ∧ cycle_status "Return" = "Ready" ∧
      cycle_status "Destroy" = "Destroy" := by
  decide

/-- C7: a scan whose input strips to the empty string is rejected with
`ok = false` and an error message, and both the table and the destroy log
are returned unchanged — no lookup, mutation or persistence happens. -/
theorem process_scan_empty_input (barcode : String) (df : List DeviceRecord)
    (ds ts u : String) (saveOk logOk : Bool) (log : List DestroyLogEntry)
    (hb : pyStrip barcode = "") :
    process_barcode_scan barcode df ds ts u saveOk logOk log =
      ⟨false, "❌ Empty barcode", df, log⟩ :=
  process_scan_empty hb df ds ts u saveOk logOk log

/-- Witness for C7 at the all-whitespace input `"   "`. -/
theorem process_scan_empty_input_witness :
    pyStrip "   " = "" ∧
      process_barcode_scan "   " [⟨"SN1", "N", "Ready", "", ""⟩] "Ready" "t" "u"
          true true [] =
        ⟨false, "❌ Empty barcode", [⟨"SN1", "N", "Ready", "", ""⟩], []⟩ :=
  ⟨by decide,
    process_scan_empty_input "   " [⟨"SN1", "N", "Ready", "", ""⟩] "Ready" "t" "u"
      true true [] (by decide)⟩

/-- C8: `find_device_by_serial` does a case-insensitive exact match — a hit
is the record stored at the returned position, it matches, and no earlier
record matches; when no record matches the result is `none`; and the lookup
`"abc123"` finds a stored `"ABC123"`. -/
theorem find_device_by_serial_spec (df : List DeviceRecord) (s : String) :
    (∀ r i, find_device_by_serial df s = some (r, i) →
        df[i]? = some r ∧ pyUpper r.serial = pyUpper s ∧
          ∀ j r', j < i → df[j]? = some r' → pyUpper r'.serial ≠ pyUpper s) ∧
      ((∀ r ∈ df, pyUpper r.serial ≠ pyUpper s) →
        find_device_by_serial df s = none) ∧
      find_device_by_serial [⟨"ABC123", "Pump", "Ready", "", ""⟩] "abc123" =
        some (⟨"ABC123", "Pump", "Ready", "", ""⟩, 0) := by
  refine ⟨?_, ?_, by decide⟩
  · intro r i h
    exact find_core_some_spec (find_device_eq_some h).1
  · intro h
    exact find_device_eq_none_of (find_core_eq_none_of h)

/-- Witness for C8: the case-insensitive hit of `"abc123"` on `"ABC123"`. -/
theorem find_device_by_serial_spec_witness :
    ([⟨"ABC123", "Pump", "Ready", "", ""⟩] : List DeviceRecord)[0]? =
        some ⟨"ABC123", "Pump", "Ready", "", ""⟩ ∧
      pyUpper "ABC123" = pyUpper "abc123" := by
  have h := (find_device_by_serial_spec
      [⟨"ABC123", "Pump", "Ready", "", ""⟩] "abc123").1
    ⟨"ABC123", "Pump", "Ready", "", ""⟩ 0 (by decide)
  exact ⟨h.1, h.2.1⟩

/-- C9: every status string other than exactly `"Ready"` and `"Return"` is
sent to `"Destroy"` by `cycle_status`, and a scan of a record holding such a
malformed (non-`"Destroy"`) status writes `"Destroy"` into that row of the
table. -/
theorem cycle_status_malformed_to_destroy (s : String)
    (h1 : s ≠ "Ready") (h2 : s ≠ "Return") :
    cycle_status s = "Destroy" ∧
      ∀ (barcode : String) (df : List DeviceRecord) (device : DeviceRecord)
        (idx : Nat) (ds ts u : String) (saveOk logOk : Bool)
        (log : List DestroyLogEntry),
        find_device_by_serial df (pyStrip barcode) = some (device, idx) →
        device.status = s → s ≠ "Destroy" →
        (process_barcode_scan barcode df ds ts u saveOk logOk log).table =
          df.set idx
            { device with status := "Destroy", lastScanned := ts, scannedBy := u } := by
  have hcyc : cycle_status s = "Destroy" := by
    rw [cycle_status, if_neg h1, if_neg h2]
  refine ⟨hcyc, ?_⟩
  intro barcode df device idx ds ts u saveOk logOk log hfind hst hnd
  have hnd' : device.status ≠ "Destroy" := by rw [hst]; exact hnd
  rw [process_scan_cycle hfind hnd' ds ts u saveOk logOk log]
  rw [hst, hcyc]

/-- Witness for C9 at the malformed status `"broken"`. -/
theorem cycle_status_malformed_to_destroy_witness :
    cycle_status "broken" = "Destroy" ∧
      (process_barcode_scan "SNX" [⟨"SNX", "N", "broken", "", ""⟩] "Ready" "t" "u"
          true true []).table =
        [⟨"SNX", "N", "Destroy", "t", "u"⟩] := by
  have h := cycle_status_malformed_to_destroy "broken" (by decide) (by decide)
  refine ⟨h.1, ?_⟩
  have h2 := h.2 "SNX" [⟨"SNX", "N", "broken", "", ""⟩]
    ⟨"SNX", "N", "broken", "", ""⟩ 0 "Ready" "t" "u" true true []
    (by decide) rfl (by decide)
  exact h2

/-- C5: scanning a serial that is not in the table appends exactly one new
record — serial the stripped scan string, name the placeholder
`"Legacy pro"`, status the configured default, timestamp and actor stamped —
and every existing record is left unchanged in place. -/
theorem process_scan_creates_record (barcode : String) (df : List DeviceRecord)
    (ds ts u : String) (saveOk logOk : Bool) (log : List DestroyLogEntry)
    (hfind : find_device_by_serial df (pyStrip barcode) = none)
    (hb : pyStrip barcode ≠ "") :
    (process_barcode_scan barcode df ds ts u saveOk logOk log).table =
      df ++ [⟨pyStrip barcode, "Legacy pro", ds, ts, u⟩] := by
  rw [process_scan_create hfind hb ds ts u saveOk logOk log]

/-- Witness for C5: scanning `"NEW1"` on a one-record table appends the
stamped default-status record. -/
theorem process_scan_creates_record_witness :
    (process_barcode_scan "NEW1" [⟨"SN1", "N", "Ready", "", ""⟩] "Ready" "t" "u"
        true true []).table =
      [⟨"SN1", "N", "Ready", "", ""⟩] ++ [⟨pyStrip "NEW1", "Legacy pro", "Ready", "t", "u"⟩] :=
  process_scan_creates_record "NEW1" [⟨"SN1", "N", "Ready", "", ""⟩] "Ready" "t" "u"
    true true [] (by decide) (by decide)

/-- C6: scanning the serial of a (uniquely matching) record whose status is
`Destroy` removes that record from the active table, appends exactly one
destroy-log entry carrying that serial, and leaves the serial unfindable in
the returned table. -/
theorem process_scan_destroy_removes (barcode : String) (df : List DeviceRecord)
    (device : DeviceRecord) (idx : Nat) (ds ts u : String) (saveOk : Bool)
    (log : List DestroyLogEntry)
    (hfind : find_device_by_serial df (pyStrip barcode) = some (device, idx))
    (hst : device.status = "Destroy")
    (hser : device.serial = pyStrip barcode)
    (huniq : ∀ j r', df[j]? = some r' →
      pyUpper r'.serial = pyUpper (pyStrip barcode) → j = idx) :
    (process_barcode_scan barcode df ds ts u saveOk true log).table =
        df.eraseIdx idx ∧
      (process_barcode_scan barcode df ds ts u saveOk true log).destroyLog =
        log ++ [⟨device.serial, ts, u⟩] ∧
      find_device_by_serial
        (process_barcode_scan barcode df ds ts u saveOk true log).table
        (pyStrip barcode) = none := by
  rw [process_scan_destroy hfind hst ds ts u saveOk true log]
  refine ⟨rfl, by rw [log_destroy, if_pos rfl, hser], ?_⟩
  show find_device_by_serial (df.eraseIdx idx) (pyStrip barcode) = none
  apply find_device_eq_none_of
  apply find_core_eq_none_of
  intro r hr hmatch
  obtain ⟨j, hj, hget⟩ := mem_eraseIdx_exists_ne hr
  exact hj (huniq j r hget hmatch)

/-- Witness for C6: scanning `"SN2"` on the table holding only a Destroy
record with that serial. -/
theorem process_scan_destroy_removes_witness :
    (process_barcode_scan "SN2" [⟨"SN2", "N", "Destroy", "", ""⟩] "Ready" "t" "u"
          true true []).table =
        ([⟨"SN2", "N", "Destroy", "", ""⟩] : List DeviceRecord).eraseIdx 0 ∧
      (process_barcode_scan "SN2" [⟨"SN2", "N", "Destroy", "", ""⟩] "Ready" "t" "u"
          true true []).destroyLog = [] ++ [⟨"SN2", "t", "u"⟩] ∧
      find_device_by_serial
        (process_barcode_scan "SN2" [⟨"SN2", "N", "Destroy", "", ""⟩] "Ready" "t" "u"
          true true []).table (pyStrip "SN2") = none := by
  have huniq : ∀ (j : Nat) (r' : DeviceRecord),
      ([⟨"SN2", "N", "Destroy", "", ""⟩] : List DeviceRecord)[j]? = some r' →
      pyUpper r'.serial = pyUpper (pyStrip "SN2") → j = 0 := by
    intro j r' hget _
    match j with
    | 0 => rfl
    | j + 1 => simp at hget
  exact process_scan_destroy_removes "SN2" [⟨"SN2", "N", "Destroy", "", ""⟩]
    ⟨"SN2", "N", "Destroy", "", ""⟩ 0 "Ready" "t" "u" true []
    (by decide) rfl (by decide) huniq

/-- C10: frame property — every record whose serial does not match the
scanned barcode (case-insensitively) appears unchanged in the table returned
by `process_barcode_scan`, on all paths. -/
theorem process_scan_frame (barcode : String) (df : List DeviceRecord)
    (ds ts u : String) (saveOk logOk : Bool) (log : List DestroyLogEntry) :
    ∀ r ∈ df, pyUpper r.serial ≠ pyUpper (pyStrip barcode) →
      r ∈ (process_barcode_scan barcode df ds ts u saveOk logOk log).table := by
  intro r hr hne
  by_cases hb : pyStrip barcode = ""
  · rw [process_scan_empty hb df ds ts u saveOk logOk log]
    exact hr
  · cases hfind : find_device_by_serial df (pyStrip barcode) with
    | none =>
      rw [process_scan_create hfind hb ds ts u saveOk logOk log]
      exact List.mem_append_left _ hr
    | some p =>
      obtain ⟨device, idx⟩ := p
      have hspec := find_core_some_spec (find_device_eq_some hfind).1
      have hne_dev : r ≠ device := by
        intro h
        exact hne (by rw [h]; exact hspec.2.1)
      by_cases hd : device.status = "Destroy"
      · rw [process_scan_destroy hfind hd ds ts u saveOk logOk log]
        exact mem_eraseIdx_of_ne hspec.1 hr hne_dev
      · rw [process_scan_cycle hfind hd ds ts u saveOk logOk log]
        exact mem_set_of_ne hspec.1 hr hne_dev

/-- Witness for C10: the non-matching record `"SN9"` survives a scan of
`"SN1"` unchanged. -/
theorem process_scan_frame_witness :
    (⟨"SN9", "M", "Return", "", ""⟩ : DeviceRecord) ∈
      (process_barcode_scan "SN1"
        [⟨"SN1", "N", "Ready", "", ""⟩, ⟨"SN9", "M", "Return", "", ""⟩]
        "Ready" "t" "u" true true []).table :=
  process_scan_frame "SN1"
    [⟨"SN1", "N", "Ready", "", ""⟩, ⟨"SN9", "M", "Return", "", ""⟩]
    "Ready" "t" "u" true true [] ⟨"SN9", "M", "Return", "", ""⟩
    (by decide) (by decide)

/-- C2 counterexample: with one `Ready` record and a failing save, the scan
returns `ok = false` but the returned table already carries the cycled
status — it is not the pre-mutation input table. -/
theorem save_failure_counterexample :
    (process_barcode_scan "SN1" [⟨"SN1", "N", "Ready", "", ""⟩] "Ready" "t" "u"
        false true []).ok = false ∧
      (process_barcode_scan "SN1" [⟨"SN1", "N", "Ready", "", ""⟩] "Ready" "t" "u"
          false true []).table ≠
        [⟨"SN1", "N", "Ready", "", ""⟩] := by
  decide

/-- C2 (amended): when the persistence call fails after a logical mutation is
decided, `process_barcode_scan` returns `ok = false` together with one of the
failure messages, and the returned table and destroy log equal those of the
corresponding successful run — the decided mutation stays applied to the
in-memory table (it is not rolled back to the pre-mutation input), and the
write is not retried. -/
theorem save_failure_post_mutation_table (barcode : String)
    (df : List DeviceRecord) (ds ts u : String) (logOk : Bool)
    (log : List DestroyLogEntry) (hb : pyStrip barcode ≠ "") :
    (process_barcode_scan barcode df ds ts u false logOk log).ok = false ∧
      ((process_barcode_scan barcode df ds ts u false logOk log).message =
          "❌ Failed to delete device" ∨
        (process_barcode_scan barcode df ds ts u false logOk log).message =
          "❌ Failed to update scan info" ∨
        (process_barcode_scan barcode df ds ts u false logOk log).message =
          "❌ Failed to save device: " ++ pyStrip barcode) ∧
      (process_barcode_scan barcode df ds ts u false logOk log).table =
        (process_barcode_scan barcode df ds ts u true logOk log).table ∧
      (process_barcode_scan barcode df ds ts u false logOk log).destroyLog =
        (process_barcode_scan barcode df ds ts u true logOk log).destroyLog := by
  cases hfind : find_device_by_serial df (pyStrip barcode) with
  | none =>
    rw [process_scan_create hfind hb ds ts u false logOk log,
        process_scan_create hfind hb ds ts u true logOk log]
    exact ⟨rfl, Or.inr (Or.inr rfl), rfl, rfl⟩
  | some p =>
    obtain ⟨device, idx⟩ := p
    by_cases hd : device.status = "Destroy"
    · rw [process_scan_destroy hfind hd ds ts u false logOk log,
          process_scan_destroy hfind hd ds ts u true logOk log]
      exact ⟨rfl, Or.inl rfl, rfl, rfl⟩
    · rw [process_scan_cycle hfind hd ds ts u false logOk log,
          process_scan_cycle hfind hd ds ts u true logOk log]
      exact ⟨rfl, Or.inr (Or.inl rfl), rfl, rfl⟩

/-- Witness for the amended C2 at a concrete failing cycle-path save. -/
theorem save_failure_post_mutation_table_witness :
    (process_barcode_scan "SN1" [⟨"SN1", "N", "Ready", "", ""⟩] "Ready" "t" "u"
        false true []).ok = false ∧
      ((process_barcode_scan "SN1" [⟨"SN1", "N", "Ready", "", ""⟩] "Ready" "t" "u"
          false true []).message = "❌ Failed to delete device" ∨
        (process_barcode_scan "SN1" [⟨"SN1", "N", "Ready", "", ""⟩] "Ready" "t" "u"
          false true []).message = "❌ Failed to update scan info" ∨
        (process_barcode_scan "SN1" [⟨"SN1", "N", "Ready", "", ""⟩] "Ready" "t" "u"
          false true []).message = "❌ Failed to save device: " ++ pyStrip "SN1") ∧
      (process_barcode_scan "SN1" [⟨"SN1", "N", "Ready", "", ""⟩] "Ready" "t" "u"
          false true []).table =
        (process_barcode_scan "SN1" [⟨"SN1", "N", "Ready", "", ""⟩] "Ready" "t" "u"
          true true []).table ∧
      (process_barcode_scan "SN1" [⟨"SN1", "N", "Ready", "", ""⟩] "Ready" "t" "u"
          false true []).destroyLog =
        (process_barcode_scan "SN1" [⟨"SN1", "N", "Ready", "", ""⟩] "Ready" "t" "u"
          true true []).destroyLog :=
  save_failure_post_mutation_table "SN1" [⟨"SN1", "N", "Ready", "", ""⟩]
    "Ready" "t" "u" true [] (by decide)

/-- C1 counterexample: `"Destroy"` is one of the scanner's selectable default
statuses, and scanning an unknown serial with that default inserts a record
with status `Destroy` into the active table. -/
theorem scan_default_destroy_counterexample :
    "Destroy" ∈ deviceStatusValues ∧
      (process_barcode_scan "NEW1" [] "Destroy" "t" "u" true true []).table =
        [⟨"NEW1", "Legacy pro", "Destroy", "t", "u"⟩] := by
  decide

/-- C1 (amended): provided every record of the table has status `Ready` or
`Return` and the configured default status is `Ready` or `Return`, the table
returned by `process_barcode_scan` contains no record with status `Destroy`
(every status stays in the Ready/Return pair, so the invariant is preserved);
the unconditional claim fails because the scanner offers `Destroy` as a
selectable default status for newly created records. -/
theorem scan_preserves_no_destroy (barcode : String) (df : List DeviceRecord)
    (ds ts u : String) (saveOk logOk : Bool) (log : List DestroyLogEntry)
    (hwf : ∀ r ∈ df, r.status = "Ready" ∨ r.status = "Return")
    (hds : ds = "Ready" ∨ ds = "Return") :
    ∀ r ∈ (process_barcode_scan barcode df ds ts u saveOk logOk log).table,
      r.status ≠ "Destroy" ∧ (r.status = "Ready" ∨ r.status = "Return") := by
  intro r hr
  suffices h : r.status = "Ready" ∨ r.status = "Return" by
    refine ⟨?_, h⟩
    rcases h with h | h <;> rw [h] <;> decide
  by_cases hb : pyStrip barcode = ""
  · rw [process_scan_empty hb df ds ts u saveOk logOk log] at hr
    exact hwf r hr
  · cases hfind : find_device_by_serial df (pyStrip barcode) with
    | none =>
      rw [process_scan_create hfind hb ds ts u saveOk logOk log] at hr
      rcases List.mem_append.mp hr with h | h
      · exact hwf r h
      · rw [List.mem_singleton.mp h]
        show ds = "Ready" ∨ ds = "Return"
        exact hds
    | some p =>
      obtain ⟨device, idx⟩ := p
      have hspec := find_core_some_spec (find_device_eq_some hfind).1
      have hdev := hwf device (List.getElem?_mem hspec.1)
      have hnd : device.status ≠ "Destroy" := by
        rcases hdev with h | h <;> rw [h] <;> decide
      rw [process_scan_cycle hfind hnd ds ts u saveOk logOk log] at hr
      rcases List.mem_or_eq_of_mem_set hr with h | h
      · exact hwf r h
      · rw [h]
        show cycle_status device.status = "Ready" ∨
          cycle_status device.status = "Return"
        rcases hdev with h' | h' <;> rw [h'] <;> decide

/-- Witness for the amended C1 on a concrete one-record Ready table. -/
theorem scan_preserves_no_destroy_witness :
    ("Return" : String) ≠ "Destroy" ∧
      (("Return" : String) = "Ready" ∨ ("Return" : String) = "Return") := by
  have h := scan_preserves_no_destroy "SN1" [⟨"SN1", "N", "Ready", "", ""⟩]
    "Ready" "t" "u" true true []
    (by
      intro r hr
      rw [List.mem_singleton.mp hr]
      exact Or.inl rfl)
    (Or.inl rfl)
  exact h ⟨"SN1", "N", "Return", "t", "u"⟩ (by decide)

/-- C4: scanning the same serial twice in a row with both saves succeeding,
on a record whose status is `Ready` or `Return`, leaves the record at its
position with its serial and its original status — the scan-cycle is an
involution over the Ready/Return pair. -/
theorem process_scan_twice_involution (barcode : String) (df : List DeviceRecord)
    (device : DeviceRecord) (idx : Nat) (ds ts1 ts2 u1 u2 : String)
    (logOk1 logOk2 : Bool) (log1 log2 : List DestroyLogEntry)
    (hfind : find_device_by_serial df (pyStrip barcode) = some (device, idx))
    (hst : device.status = "Ready" ∨ device.status = "Return") :
    ∃ r', ((process_barcode_scan barcode
          (process_barcode_scan barcode df ds ts1 u1 true logOk1 log1).table
          ds ts2 u2 true logOk2 log2).table)[idx]? = some r' ∧
        r'.serial = device.serial ∧ r'.status = device.status := by
  obtain ⟨hcore, hdf, hb⟩ := find_device_eq_some hfind
  have hspec := find_core_some_spec hcore
  have hidx : idx < df.length := (List.getElem?_eq_some_iff.mp hspec.1).1
  have hnd1 : device.status ≠ "Destroy" := by
    rcases hst with h | h <;> rw [h] <;> decide
  have hne1 : df.set idx
      ⟨device.serial, device.name, cycle_status device.status, ts1, u1⟩ ≠ [] := by
    intro h
    have hlen := congrArg List.length h
    rw [List.length_set] at hlen
    exact hdf (List.length_eq_zero.mp hlen)
  have hfind2 : find_device_by_serial
      (df.set idx ⟨device.serial, device.name, cycle_status device.status, ts1, u1⟩)
      (pyStrip barcode) =
      some (⟨device.serial, device.name, cycle_status device.status, ts1, u1⟩, idx) :=
    find_device_of_core (find_core_set hcore rfl) hne1 hb
  have hnd2 : (⟨device.serial, device.name, cycle_status device.status, ts1, u1⟩ :
      DeviceRecord).status ≠ "Destroy" := by
    show cycle_status device.status ≠ "Destroy"
    rcases hst with h | h <;> rw [h] <;> decide
  rw [process_scan_cycle hfind hnd1 ds ts1 u1 true logOk1 log1]
  dsimp only
  rw [process_scan_cycle hfind2 hnd2 ds ts2 u2 true logOk2 log2]
  dsimp only
  refine ⟨_, List.getElem?_set_self (by rw [List.length_set]; exact hidx), rfl, ?_⟩
  show cycle_status (cycle_status device.status) = device.status
  rcases hst with h | h <;> rw [h] <;> decide

/-- Witness for C4: double scan of `"SN1"` on a one-record Ready table. -/
theorem process_scan_twice_involution_witness :
    ∃ r', ((process_barcode_scan "SN1"
          (process_barcode_scan "SN1" [⟨"SN1", "N", "Ready", "", ""⟩]
            "Ready" "t1" "u1" true true []).table
          "Ready" "t2" "u2" true true []).table)[0]? = some r' ∧
        r'.serial = (⟨"SN1", "N", "Ready", "", ""⟩ : DeviceRecord).serial ∧
        r'.status = (⟨"SN1", "N", "Ready", "", ""⟩ : DeviceRecord).status :=
  process_scan_twice_involution "SN1" [⟨"SN1", "N", "Ready", "", ""⟩]
    ⟨"SN1", "N", "Ready", "", ""⟩ 0 "Ready" "t1" "t2" "u1" "u2" true true [] []
    (by decide) (Or.inl rfl)

example :
    process_barcode_scan "NEW1" [] "Ready" "t1" "u" true true []
      = ⟨true, "➕ New Device Added: NEW1", [⟨"NEW1", "Legacy pro", "Ready", "t1", "u"⟩], []⟩ := by
  decide

example :
    process_barcode_scan "sn2" [⟨"SN2", "N", "Destroy", "", ""⟩] "Ready" "t1" "u" true true []
      = ⟨true, "💥 Device Destroyed & Removed: sn2", [], [⟨"sn2", "t1", "u"⟩]⟩ := by
  decide
